import Mathlib

/-!
Verification of the terminal-launcher logic of
`nautilus_open_any_terminal/nautilus_open_any_terminal.py`.

The Python module is shallowly embedded: the module-level globals
(`terminal`, `terminal_cmd`, `terminal_data`, `new_tab`, `flatpak`) become an
explicit `GlobalState` record threaded through the functions, settings reads
become a `Settings` record, the filesystem visible to `read_os_release`
becomes an `OsEnv` record, and Python exceptions become `Except PyErr`.
`Popen` calls are reified as a `Spawn` record (argv plus optional working
directory) instead of actually spawning a process.
-/

/-- Python exceptions that the embedded code can raise.  `FileNotFoundError`
is a subclass of `OSError` but is always caught inside `read_os_release`, so
it never appears here as a value. -/
inductive PyErr where
  | osError (msg : String)
  | valueError (msg : String)
  | keyError (key : String)
  deriving Repr, DecidableEq

/-- The clause `except OSError` catches `osError` (and its subclasses such as
`PermissionError`), but not `ValueError` or `KeyError`. -/
def PyErr.isOSError : PyErr → Bool
  | .osError _ => true
  | _ => false

/-- State of one of the os-release files as seen by `open()`:
absent (`FileNotFoundError`), present but unreadable (`PermissionError`,
an `OSError`), or readable with the given lines. -/
inductive FileState where
  | missing
  | unreadable
  | content (lines : List String)
  deriving Repr, DecidableEq

/-- The part of the filesystem that `read_os_release` looks at:
`/etc/os-release` and `/usr/lib/os-release`, in that order. -/
structure OsEnv where
  etc_os_release : FileState
  usr_lib_os_release : FileState
  deriving Repr, DecidableEq

/-- Model of `str.rstrip()`: drop trailing whitespace. -/
def rstrip (s : String) : String :=
  String.mk (s.data.reverse.dropWhile Char.isWhitespace).reverse

/-- Characters allowed after the first one in the regex group
`[A-Z][A-Z_0-9]+` of `read_os_release`. -/
def isNameTail (c : Char) : Bool :=
  ('A' ≤ c && c ≤ 'Z') || ('0' ≤ c && c ≤ '9') || c = '_'

/-- The regex step `re.match(r"([A-Z][A-Z_0-9]+)=(.*)", line)`.  Because `=` is outside the
character class, the regex matches exactly when the maximal leading run
`[A-Z][A-Z_0-9]*` has length at least two and is immediately followed by
`=`; the value group takes the whole remainder of the line. -/
def osMatch (cs : List Char) : Option (String × String) :=
  match cs with
  | [] => none
  | c :: rest =>
    if 'A' ≤ c && c ≤ 'Z' then
      let tl := rest.takeWhile isNameTail
      let rest2 := rest.dropWhile isNameTail
      if tl.isEmpty then none
      else
        match rest2 with
        | '=' :: v => some (String.mk (c :: tl), String.mk v)
        | _ => none
    else none

/-- Modelled from the stdlib: `ast.literal_eval` restricted to the shape it
meets here — a value starting with a quote character.  We model the simple
well-formed case (matching opening and closing quote, no inner quote or
backslash) as success stripping the quotes, and everything else as a
`ValueError`. -/
def literal_eval_str (v : List Char) : Option String :=
  match v with
  | [] => none
  | q :: rest =>
    if (q = '"' || q = '\'') && rest.getLast? = some q
        && rest.dropLast.all (fun c => !(c == q) && !(c == '\\')) then
      some (String.mk rest.dropLast)
    else none

/-- Outcome of processing one line of an os-release file. -/
inductive LineResult where
  | skip
  | pair (name val : String)
  | badLine (line : String)
  | badLiteral (line : String)
  deriving Repr, DecidableEq

/-- One iteration of the loop body of `read_os_release`: rstrip the line,
skip blanks and comments, match the `NAME=value` regex (failure raises
`OSError "bad line"`), and strip quoting from the value with
`ast.literal_eval` when it starts with a quote character. -/
def parse_os_line (raw : String) : LineResult :=
  let line := rstrip raw
  if line.data.isEmpty || line.data.head? = some '#' then .skip
  else
    match osMatch line.data with
    | none => .badLine line
    | some (n, v) =>
      match v.data with
      | [] => .pair n v
      | q :: _ =>
        if q = '"' || q = '\'' then
          match literal_eval_str v.data with
          | some v2 => .pair n v2
          | none => .badLiteral line
        else .pair n v

/-- Process the lines of one readable file in order, stopping at the first
bad line (which raises). -/
def parse_lines : List String → Except PyErr (List (String × String))
  | [] => .ok []
  | l :: rest =>
    match parse_os_line l with
    | .skip => parse_lines rest
    | .pair n v => (parse_lines rest).map (fun ps => (n, v) :: ps)
    | .badLine line => .error (.osError ("bad line " ++ line))
    | .badLiteral line => .error (.valueError ("malformed string value " ++ line))

/-- Yields of one file of `read_os_release`: a missing file is silently
skipped (`except FileNotFoundError: continue`), an unreadable one raises
`PermissionError` (an `OSError`), a readable one is parsed line by line. -/
def read_one_os_release : FileState → Except PyErr (List (String × String))
  | .missing => .ok []
  | .unreadable => .error (.osError "permission denied")
  | .content lines => parse_lines lines

/-- The generator `read_os_release()`: iterates over BOTH well-known paths (the loop has no
break), concatenating the yielded pairs; an error while reading the first
file prevents the second from being read. -/
def read_os_release (env : OsEnv) : Except PyErr (List (String × String)) := do
  let a ← read_one_os_release env.etc_os_release
  let b ← read_one_os_release env.usr_lib_os_release
  pure (a ++ b)

/-- Lookup `dict(pairs)[k]`: in a Python dict built from a pair sequence, the LAST
binding of a key wins. -/
def dict_get (pairs : List (String × String)) (k : String) : Option String :=
  (pairs.reverse.find? (fun p => p.1 = k)).map (fun p => p.2)

/-- Function `distro_id()`: `dict(read_os_release())["ID"]` with only `OSError`
caught and turned into `"unknown"`.  A `KeyError` from the dict lookup (no
`ID=` entry was yielded) and a `ValueError` from `ast.literal_eval`
propagate to the caller. -/
def distro_id (env : OsEnv) : Except PyErr String :=
  match read_os_release env with
  | .error e => if e.isOSError then .ok "unknown" else .error e
  | .ok pairs =>
    match dict_get pairs "ID" with
    | some v => .ok v
    | none => .error (.keyError "ID")

/-- The `Terminal` dataclass: one terminal emulator's command-line dialect. -/
structure Terminal where
  name : String
  workdir_arguments : Option (List String) := none
  new_tab_arguments : Option (List String) := none
  new_window_arguments : Option (List String) := none
  command_arguments : List String := ["-e"]
  flatpak_package : Option String := none
  deriving Repr, DecidableEq

/-- The `TERMINALS` dict, as the lookup function `TERMINALS.get`. -/
def TERMINALS : String → Option Terminal
  | "alacritty" => some { name := "Alacritty" }
  | "blackbox" => some { name := "Black Box", workdir_arguments := some ["--working-directory"],
                         command_arguments := ["-c"], flatpak_package := some "com.raggesilver.BlackBox" }
  | "cool-retro-term" => some { name := "cool-retro-term", workdir_arguments := some ["--workdir"] }
  | "deepin-terminal" => some { name := "Deepin Terminal" }
  | "foot" => some { name := "Foot" }
  | "footclient" => some { name := "FootClient" }
  | "gnome-terminal" => some { name := "Terminal", new_tab_arguments := some ["--tab"] }
  | "guake" => some { name := "Guake", workdir_arguments := some ["--show", "--new-tab"] }
  | "hyper" => some { name := "Hyper" }
  | "kermit" => some { name := "Kermit" }
  | "kgx" => some { name := "Console", new_tab_arguments := some ["--tab"] }
  | "kitty" => some { name := "kitty" }
  | "konsole" => some { name := "Konsole", new_tab_arguments := some ["--new-tab"] }
  | "mate-terminal" => some { name := "Mate Terminal", new_tab_arguments := some ["--tab"] }
  | "mlterm" => some { name := "Mlterm" }
  | "prompt" => some { name := "Prompt", command_arguments := ["-x"],
                       new_tab_arguments := some ["--tab"], new_window_arguments := some ["--new-window"],
                       flatpak_package := some "org.gnome.Prompt" }
  | "qterminal" => some { name := "QTerminal" }
  | "rio" => some { name := "Rio" }
  | "sakura" => some { name := "Sakura" }
  | "st" => some { name := "Simple Terminal" }
  | "tabby" => some { name := "Tabby", command_arguments := ["run"], workdir_arguments := some ["open"] }
  | "terminator" => some { name := "Terminator", new_tab_arguments := some ["--new-tab"] }
  | "terminology" => some { name := "Terminology" }
  | "terminus" => some { name := "Terminus" }
  | "termite" => some { name := "Termite" }
  | "tilix" => some { name := "Tilix", flatpak_package := some "com.gexperts.Tilix" }
  | "urxvt" => some { name := "rxvt-unicode" }
  | "urxvtc" => some { name := "urxvtc" }
  | "uxterm" => some { name := "UXTerm" }
  | "warp" => some { name := "warp" }
  | "wezterm" => some { name := "Wez's Terminal Emulator",
                        workdir_arguments := some ["start", "--cwd"], flatpak_package := some "org.wezfurlong.wezterm" }
  | "xfce4-terminal" => some { name := "Xfce Terminal", new_tab_arguments := some ["--tab"] }
  | "xterm" => some { name := "XTerm" }
  | _ => none

/-- The list `FLATPAK_PARMS = ["off", "system", "user"]`. -/
def FLATPAK_PARMS : List String := ["off", "system", "user"]

/-- The list `REMOTE_URI_SCHEME = ["ftp", "sftp"]`. -/
def REMOTE_URI_SCHEME : List String := ["ftp", "sftp"]

/-- Python truthiness of an `Optional[list[str]]`: `None` and `[]` are falsy. -/
def truthyList : Option (List String) → Bool
  | none => false
  | some l => !l.isEmpty

/-- Python truthiness of an `Optional[str]`: `None` and `""` are falsy. -/
def truthyStr : Option String → Bool
  | none => false
  | some s => s ≠ ""

/-- Python truthiness of an `Optional[int]`: `None` and `0` are falsy. -/
def truthyNat : Option Nat → Bool
  | none => false
  | some n => n ≠ 0

/-- The module-level globals of the Python file that hold the resolved
configuration, as one record. -/
structure GlobalState where
  terminal : String
  terminal_cmd : Option (List String)
  terminal_data : Terminal
  new_tab : Bool
  flatpak : String
  deriving Repr, DecidableEq

/-- The initial values of the globals (lines 98-102 of the source):
`terminal_cmd` starts out as Python `None`. -/
def initial_state : GlobalState where
  terminal := "gnome-terminal"
  terminal_cmd := none
  terminal_data := { name := "Terminal", new_tab_arguments := some ["--tab"] }
  new_tab := false
  flatpak := "off"

/-- The three settings values `set_terminal_args` reads from GSettings:
`get_string("terminal")`, `get_boolean("new-tab")`, `get_enum("flatpak")`
(an index into `FLATPAK_PARMS`, guaranteed in range by the schema). -/
structure Settings where
  terminal : String
  new_tab : Bool
  flatpak_enum : Fin 3
  deriving Repr, DecidableEq

/-- The diagnostic printed for an unknown terminal identifier. -/
def unknown_terminal_line (value : String) : String :=
  "open-any-terminal: unknown terminal \"" ++ value ++ "\""

/-- The status line printed at the end of a successful `set_terminal_args`. -/
def status_line (t nt fp : String) : String :=
  "open-any-terminal: terminal is set to \"" ++ t ++ "\" " ++ nt ++ " " ++ fp

/-- The `new_tab_text` computed by `set_terminal_args`. -/
def new_tab_text_of (newer_tab : Bool) (ntd : Terminal) : String :=
  let base := if newer_tab && truthyList ntd.new_tab_arguments then "opening in a new tab"
              else "opening a new window"
  if newer_tab && !truthyList ntd.new_tab_arguments then
    base ++ " (terminal does not support tabs)"
  else base

/-- The non-flatpak part of `set_terminal_args`: `terminal_cmd = [terminal]`,
with `terminal_cmd[0]` replaced by `"blackbox-terminal"` when the terminal
is `blackbox` and `distro_id()` returns `"fedora"`.  `distro_id()` is only
called when the terminal is `blackbox` (short-circuit of `and`), and any
exception it raises propagates. -/
def direct_cmd (value : String) (env : OsEnv) : Except PyErr (List String) :=
  match (if value = "blackbox" then distro_id env else .ok "") with
  | .error e => .error e
  | .ok d => .ok (if value = "blackbox" ∧ d = "fedora" then ["blackbox-terminal"] else [value])

/-- Embedding of `set_terminal_args`: reads the three settings, updates the globals and
returns the lines it prints.  Mirrors the source line by line:
the global `flatpak` is assigned BEFORE the registry lookup, so it changes
even when the identifier is unknown; `new_tab` is assigned only inside
`if newer_tab and terminal_data.new_tab_arguments`; in the non-flatpak
branch `distro_id()` is called only when the terminal is `"blackbox"`
(short-circuit of `and`), `terminal_cmd[0]` is replaced on Fedora, and the
global `flatpak` is reset to `"off"`. -/
def set_terminal_args (s : Settings) (env : OsEnv) (st : GlobalState) :
    Except PyErr (GlobalState × List String) :=
  let value := s.terminal
  let newer_tab := s.new_tab
  let flatpakv := FLATPAK_PARMS.get s.flatpak_enum
  match TERMINALS value with
  | none => .ok ({ st with flatpak := flatpakv }, [unknown_terminal_line value])
  | some ntd =>
    let st1 : GlobalState :=
      { st with flatpak := flatpakv, terminal := value, terminal_data := ntd,
                new_tab := if newer_tab && truthyList ntd.new_tab_arguments then newer_tab
                           else st.new_tab }
    if flatpakv ≠ "off" ∧ ntd.flatpak_package.isSome then
      .ok ({ st1 with terminal_cmd := some ["flatpak", "run", "--" ++ flatpakv,
                                             ntd.flatpak_package.getD ""] },
           [status_line value (new_tab_text_of newer_tab ntd) ("with flatpak as " ++ flatpakv)])
    else
      match direct_cmd value env with
      | .error e => .error e
      | .ok cmdv =>
        .ok ({ st1 with terminal_cmd := some cmdv, flatpak := "off" },
             [status_line value (new_tab_text_of newer_tab ntd) ""])

/-- Value of one hexadecimal digit, `none` for every other character,
working on the code point like `int(x, 16)` does per digit. -/
def hex_digit_value (c : Char) : Option Nat :=
  let n := c.toNat
  if 48 ≤ n ∧ n ≤ 57 then some (n - 48)
  else if 97 ≤ n ∧ n ≤ 102 then some (n - 87)
  else if 65 ≤ n ∧ n ≤ 70 then some (n - 55)
  else none

/-- Modelled from the stdlib: `urllib.parse.unquote` at the byte level — a
`%` followed by two hex digits becomes the character with that code, any
other `%` is kept literally.  (Multi-byte UTF-8 escape sequences are out of
scope; the claims only involve single-byte characters.) -/
def unquoteChars : List Char → List Char
  | '%' :: h1 :: h2 :: rest =>
    match hex_digit_value h1, hex_digit_value h2 with
    | some a, some b => Char.ofNat (16 * a + b) :: unquoteChars rest
    | _, _ => '%' :: unquoteChars (h1 :: h2 :: rest)
  | c :: rest => c :: unquoteChars rest
  | [] => []

/-- Percent-decoding of a whole string, `urllib.parse.unquote`. -/
def unquote (s : String) : String := String.mk (unquoteChars s.data)

/-- The complement of the `shlex` unsafe-character regex (ASCII mode):
ASCII alphanumerics, underscore, and the punctuation at-sign, percent,
plus, equals, colon, comma, dot, slash and dash are safe. -/
def shlexSafe (c : Char) : Bool :=
  c.isAlpha || c.isDigit || c = '_' || c = '@' || c = '%' || c = '+' || c = '='
    || c = ':' || c = ',' || c = '.' || c = '/' || c = '-'

/-- The replacement done by `shlex.quote` at the character-list level:
every single quote becomes the five-character sequence quote, double
quote, quote, double quote, quote. -/
def shQuoteBody : List Char → List Char
  | [] => []
  | c :: rest =>
    (if c = '\'' then ['\'', '"', '\'', '"', '\''] else [c]) ++ shQuoteBody rest

/-- Model of `shlex.quote`: the empty string becomes `''`; a string of safe
characters is returned unchanged; anything else is wrapped in single quotes
with every inner single quote replaced by `'"'"'`. -/
def shlex_quote (s : String) : String :=
  if s = "" then "''"
  else if s.data.all shlexSafe then s
  else String.mk ('\'' :: (shQuoteBody s.data ++ ['\'']))

/-- The fields of `urllib.parse.urlparse(uri)` that `open_terminal_in_uri`
reads.  `username`, `hostname` and `port` are `None` when absent from the
URI (and `username` can also be the falsy empty string). -/
structure ParseResult where
  scheme : String
  username : Option String := none
  hostname : Option String := none
  port : Option Nat := none
  path : String
  deriving Repr, DecidableEq

/-- A reified `Popen` call: the argument vector and the `cwd` keyword
argument (absent in the remote branch). -/
structure Spawn where
  argv : List String
  cwd : Option String := none
  deriving Repr, DecidableEq

/-- Embedding of `open_terminal_in_uri`: builds the command on a copy of the global
`terminal_cmd` and spawns it.  The result is `none` when the Python code
would raise before spawning: `terminal_cmd` is still `None`
(`AttributeError` on `.copy()`), or the remote branch appends a `None`
hostname to the list (`TypeError` inside `Popen`).  On success it returns
the reified spawn together with the (unchanged) globals. -/
def open_terminal_in_uri (st : GlobalState) (r : ParseResult) :
    Option (Spawn × GlobalState) :=
  match st.terminal_cmd with
  | none => none
  | some cmd0 =>
    if r.scheme ∈ REMOTE_URI_SCHEME then
      let cmd := cmd0 ++ st.terminal_data.command_arguments ++ ["ssh", "-t"]
      let hostArg : Option String :=
        if truthyStr r.username then
          some ((r.username.getD "") ++ "@" ++ (r.hostname.getD "None"))
        else r.hostname
      match hostArg with
      | none => none
      | some ha =>
        let cmd := cmd ++ [ha]
        let cmd := cmd ++ (if truthyNat r.port then ["-p", toString (r.port.getD 0)] else [])
        let cmd := cmd ++ ["cd", shlex_quote (unquote r.path), ";", "exec", "$SHELL"]
        some ({ argv := cmd }, st)
    else
      let filename := unquote r.path
      let cmd := cmd0 ++
        (if st.new_tab && truthyList st.terminal_data.new_tab_arguments then
           st.terminal_data.new_tab_arguments.getD []
         else if truthyList st.terminal_data.new_window_arguments then
           st.terminal_data.new_window_arguments.getD []
         else [])
      let cmd := cmd ++
        (if filename ≠ "" ∧ truthyList st.terminal_data.workdir_arguments then
           st.terminal_data.workdir_arguments.getD [] ++ [filename]
         else [])
      some ({ argv := cmd, cwd := some filename }, st)

/-- The remote argv of spec section 4.3, written from the spec's words:
`commandPrefix + commandArguments + ["ssh","-t", userAtHostOrHost, ("-p",
port)?, "cd", shellQuote(decodedPath), ";", "exec", "$SHELL"]`, the user
portion only when a username is present (non-empty) and the port flag only
when a (non-zero) port is present. -/
def spec_remote_argv (pre cmdArgs : List String) (username : Option String)
    (host : String) (port : Option Nat) (decodedPath : String) : List String :=
  pre ++ cmdArgs ++ ["ssh", "-t"]
    ++ [match username with
        | some u => if u ≠ "" then u ++ "@" ++ host else host
        | none => host]
    ++ (match port with
        | some p => if p ≠ 0 then ["-p", toString p] else []
        | none => [])
    ++ ["cd", shlex_quote decodedPath, ";", "exec", "$SHELL"]

/-- The local argv of spec section 4.3, written from the spec's words:
`commandPrefix + (newTabArguments or newWindowArguments, chosen per
config.preferNewTab and availability) + (workdirArguments + [path] if path
non-empty AND spec supports workdir arguments)`. -/
def spec_local_argv (pre : List String) (td : Terminal) (preferNewTab : Bool)
    (path : String) : List String :=
  pre ++
    (if preferNewTab && truthyList td.new_tab_arguments then td.new_tab_arguments.getD []
     else if truthyList td.new_window_arguments then td.new_window_arguments.getD []
     else []) ++
    (if path ≠ "" ∧ truthyList td.workdir_arguments then td.workdir_arguments.getD [] ++ [path]
     else [])

/-- Lexer state of a POSIX shell reading one command line: outside any
quote, inside single quotes, inside double quotes, or just after an
unquoted / double-quoted backslash. -/
inductive ShMode where
  | norm
  | squote
  | dquote
  | normEsc
  | dquoteEsc
  deriving Repr, DecidableEq

/-- A (model of a) POSIX shell's field splitting and quote removal for a
command line without expansions: splits on unquoted blanks, single quotes
protect everything up to the matching quote, double quotes protect
everything except a backslash before one of dollar, backquote, double quote
or backslash, and an unquoted backslash escapes the next character.
`none` when a quote is left open (the shell would ask for more input).
Arguments: mode, remaining input, current word (reversed), whether a word
has been started. -/
def shWords : ShMode → List Char → List Char → Bool → Option (List String)
  | .norm, [], acc, started => some (if started then [String.mk acc.reverse] else [])
  | .squote, [], _, _ => none
  | .dquote, [], _, _ => none
  | .normEsc, [], _, _ => none
  | .dquoteEsc, [], _, _ => none
  | .norm, c :: rest, acc, started =>
    if c = '\'' then shWords .squote rest acc true
    else if c = '"' then shWords .dquote rest acc true
    else if c = '\\' then shWords .normEsc rest acc started
    else if c = ' ' || c = '\t' then
      match shWords .norm rest [] false with
      | some ws => some (if started then String.mk acc.reverse :: ws else ws)
      | none => none
    else shWords .norm rest (c :: acc) true
  | .normEsc, c :: rest, acc, _ => shWords .norm rest (c :: acc) true
  | .squote, c :: rest, acc, started =>
    if c = '\'' then shWords .norm rest acc started
    else shWords .squote rest (c :: acc) started
  | .dquote, c :: rest, acc, started =>
    if c = '"' then shWords .norm rest acc started
    else if c = '\\' then shWords .dquoteEsc rest acc started
    else shWords .dquote rest (c :: acc) started
  | .dquoteEsc, c :: rest, acc, started =>
    if c = '"' || c = '\\' || c = '$' || c = Char.ofNat 96 then
      shWords .dquote rest (c :: acc) started
    else shWords .dquote rest ('\\' :: c :: acc) started

deriving instance DecidableEq for Except

/-- An environment with no os-release file at either path. -/
def env0 : OsEnv := ⟨.missing, .missing⟩

/-- Closed form of `set_terminal_args` when the registry lookup succeeds. -/
lemma set_terminal_args_known (s : Settings) (env : OsEnv) (st : GlobalState)
    (td : Terminal) (h : TERMINALS s.terminal = some td) :
    set_terminal_args s env st =
      if FLATPAK_PARMS.get s.flatpak_enum ≠ "off" ∧ td.flatpak_package.isSome then
        .ok (⟨s.terminal,
              some ["flatpak", "run", "--" ++ FLATPAK_PARMS.get s.flatpak_enum,
                    td.flatpak_package.getD ""],
              td,
              if s.new_tab && truthyList td.new_tab_arguments then s.new_tab else st.new_tab,
              FLATPAK_PARMS.get s.flatpak_enum⟩,
             [status_line s.terminal (new_tab_text_of s.new_tab td)
                ("with flatpak as " ++ FLATPAK_PARMS.get s.flatpak_enum)])
      else
        match direct_cmd s.terminal env with
        | .error e => .error e
        | .ok cmdv =>
          .ok (⟨s.terminal, some cmdv, td,
                if s.new_tab && truthyList td.new_tab_arguments then s.new_tab else st.new_tab,
                "off"⟩,
               [status_line s.terminal (new_tab_text_of s.new_tab td) ""]) := by
  simp only [set_terminal_args, h]

/-- C1 (amended): for every identifier not present in the terminal registry,
`set_terminal_args` emits exactly the unknown-terminal diagnostic, does not
raise, and leaves `terminal`, `terminal_cmd`, `terminal_data` and `new_tab`
unchanged; the sandbox-mode global `flatpak`, however, is overwritten with
the newly read settings value before the lookup. -/
theorem set_terminal_args_unknown_soft_fail (s : Settings) (env : OsEnv)
    (st : GlobalState) (h : TERMINALS s.terminal = none) :
    set_terminal_args s env st =
      .ok ({ st with flatpak := FLATPAK_PARMS.get s.flatpak_enum },
           [unknown_terminal_line s.terminal]) := by
  simp only [set_terminal_args, h]

theorem set_terminal_args_unknown_soft_fail_witness :
    TERMINALS "no-such-terminal" = none ∧
    set_terminal_args ⟨"no-such-terminal", false, 2⟩ env0 initial_state =
      .ok ({ initial_state with flatpak := "user" },
           ["open-any-terminal: unknown terminal \"no-such-terminal\""]) :=
  ⟨rfl, by
    rw [set_terminal_args_unknown_soft_fail ⟨"no-such-terminal", false, 2⟩ env0 initial_state rfl]
    rfl⟩

/-- C1 (counterexample): the claim says every field of the previously
resolved configuration — the sandbox mode included — is left unchanged on
an unknown identifier.  But with sandbox setting `user` and the unknown
identifier `"no-such-terminal"`, the `flatpak` global changes from `"off"`
to `"user"`: the assignment happens before the registry lookup. -/
theorem set_terminal_args_unknown_changes_flatpak :
    TERMINALS "no-such-terminal" = none ∧
    initial_state.flatpak = "off" ∧
    (set_terminal_args ⟨"no-such-terminal", false, 2⟩ env0 initial_state).map
        (fun p => p.1.flatpak) = .ok "user" := by
  decide

/-- C2 (counterexample): two calls with identical settings values
(`terminal="gnome-terminal"`, `new-tab=false`, `flatpak=off`) but different
prior global state give configurations differing in the `new_tab` field:
the code only ever assigns `new_tab` when the new setting is true and the
terminal supports tabs, so a prior `true` sticks. -/
theorem set_terminal_args_depends_on_prior_state :
    (set_terminal_args ⟨"gnome-terminal", false, 0⟩ env0
        { initial_state with new_tab := true }).map (fun p => p.1.new_tab) = .ok true ∧
    (set_terminal_args ⟨"gnome-terminal", false, 0⟩ env0
        { initial_state with new_tab := false }).map (fun p => p.1.new_tab) = .ok false := by
  decide

/-- C2 (amended): with a known identifier, the resulting `terminal`,
`terminal_cmd`, `terminal_data` and `flatpak` fields — and the printed
status line — are functions of the settings values alone, identical for any
two prior global states; and the resolver is idempotent in the strict
sense: feeding its own output state back in with the same settings
reproduces it exactly.  Only the `new_tab` field can keep depending on the
prior state (see the counterexample). -/
theorem set_terminal_args_pure_modulo_new_tab :
    (∀ (s : Settings) (env : OsEnv) (st st' : GlobalState) (td : Terminal),
        TERMINALS s.terminal = some td →
        (set_terminal_args s env st).map
            (fun p => (p.1.terminal, p.1.terminal_cmd, p.1.terminal_data, p.1.flatpak, p.2)) =
        (set_terminal_args s env st').map
            (fun p => (p.1.terminal, p.1.terminal_cmd, p.1.terminal_data, p.1.flatpak, p.2))) ∧
    (∀ (s : Settings) (env : OsEnv) (st st1 : GlobalState) (out : List String),
        set_terminal_args s env st = .ok (st1, out) →
        set_terminal_args s env st1 = .ok (st1, out)) := by
  constructor
  · intro s env st st' td h
    rw [set_terminal_args_known s env st td h, set_terminal_args_known s env st' td h]
    by_cases hc : (FLATPAK_PARMS.get s.flatpak_enum ≠ "off" ∧ td.flatpak_package.isSome = true)
    · rw [if_pos hc, if_pos hc]
      rfl
    · rw [if_neg hc, if_neg hc]
      cases hd : direct_cmd s.terminal env <;> rfl
  · intro s env st st1 out h
    cases hl : TERMINALS s.terminal with
    | none =>
      simp only [set_terminal_args, hl] at h ⊢
      rw [Except.ok.injEq, Prod.mk.injEq] at h
      obtain ⟨h1, h2⟩ := h
      subst h1; subst h2
      rfl
    | some td =>
      rw [set_terminal_args_known s env st td hl] at h
      rw [set_terminal_args_known s env st1 td hl]
      by_cases hc : (FLATPAK_PARMS.get s.flatpak_enum ≠ "off" ∧ td.flatpak_package.isSome = true)
      · rw [if_pos hc] at h ⊢
        rw [Except.ok.injEq, Prod.mk.injEq] at h
        obtain ⟨h1, h2⟩ := h
        subst h1; subst h2
        by_cases hb : (s.new_tab && truthyList td.new_tab_arguments) = true
        · simp [hb]
        · simp [hb]
      · rw [if_neg hc] at h ⊢
        cases hd : direct_cmd s.terminal env with
        | error e => rw [hd] at h; simp at h
        | ok cmdv =>
          rw [hd] at h
          simp only [] at h
          rw [Except.ok.injEq, Prod.mk.injEq] at h
          obtain ⟨h1, h2⟩ := h
          subst h1; subst h2
          by_cases hb : (s.new_tab && truthyList td.new_tab_arguments) = true
          · simp [hb]
          · simp [hb]

theorem set_terminal_args_pure_modulo_new_tab_witness :
    TERMINALS "konsole" = some { name := "Konsole", new_tab_arguments := some ["--new-tab"] } ∧
    (set_terminal_args ⟨"konsole", true, 0⟩ env0 initial_state).map
        (fun p => (p.1.terminal, p.1.terminal_cmd, p.1.terminal_data, p.1.flatpak, p.2)) =
      (set_terminal_args ⟨"konsole", true, 0⟩ env0 { initial_state with new_tab := true }).map
        (fun p => (p.1.terminal, p.1.terminal_cmd, p.1.terminal_data, p.1.flatpak, p.2)) ∧
    set_terminal_args ⟨"konsole", true, 0⟩ env0
        { terminal := "konsole", terminal_cmd := some ["konsole"],
          terminal_data := { name := "Konsole", new_tab_arguments := some ["--new-tab"] },
          new_tab := true, flatpak := "off" } =
      .ok ({ terminal := "konsole", terminal_cmd := some ["konsole"],
             terminal_data := { name := "Konsole", new_tab_arguments := some ["--new-tab"] },
             new_tab := true, flatpak := "off" },
           ["open-any-terminal: terminal is set to \"konsole\" opening in a new tab "]) :=
  ⟨rfl,
   set_terminal_args_pure_modulo_new_tab.1 ⟨"konsole", true, 0⟩ env0 initial_state
     { initial_state with new_tab := true } _ rfl,
   set_terminal_args_pure_modulo_new_tab.2 ⟨"konsole", true, 0⟩ env0
     { terminal := "konsole", terminal_cmd := some ["konsole"],
       terminal_data := { name := "Konsole", new_tab_arguments := some ["--new-tab"] },
       new_tab := true, flatpak := "off" } _ _ (by decide)⟩

/-- C3 (code evaluation at the failing inputs): `distro_id` only catches
`OSError`.  When both os-release files are missing, or a file is readable
but has no `ID=` entry, `dict(read_os_release())["ID"]` raises `KeyError`,
which propagates — the sentinel `"unknown"` is NOT returned.  The sentinel
is produced only for the `OSError` cases: an unreadable file or a malformed
line. -/
theorem distro_id_error_cases :
    distro_id ⟨.missing, .missing⟩ = .error (.keyError "ID") ∧
    distro_id ⟨.content ["NAME=Linux"], .missing⟩ = .error (.keyError "ID") ∧
    distro_id ⟨.unreadable, .missing⟩ = .ok "unknown" ∧
    distro_id ⟨.content ["garbage"], .missing⟩ = .ok "unknown" := by
  decide

/-- C7: with a known identifier and sandbox mode not `off`: if the spec has
a flatpak package the command prefix becomes
`["flatpak", "run", "--" ++ mode, package]`; if it has none, the resolver
still succeeds (no raise), uses the direct prefix `[identifier]`, and
resets the sandbox mode to `off` (silently disabled). -/
theorem set_terminal_args_sandbox_cmd :
    ∀ (s : Settings) (env : OsEnv) (st : GlobalState) (td : Terminal),
      TERMINALS s.terminal = some td →
      FLATPAK_PARMS.get s.flatpak_enum ≠ "off" →
      (∀ pkg, td.flatpak_package = some pkg →
        ∃ st1 out, set_terminal_args s env st = .ok (st1, out) ∧
          st1.terminal_cmd =
            some ["flatpak", "run", "--" ++ FLATPAK_PARMS.get s.flatpak_enum, pkg]) ∧
      (td.flatpak_package = none →
        ∃ st1 out, set_terminal_args s env st = .ok (st1, out) ∧
          st1.terminal_cmd = some [s.terminal] ∧ st1.flatpak = "off") := by
  intro s env st td h hfp
  constructor
  · intro pkg hpkg
    rw [set_terminal_args_known s env st td h,
        if_pos ⟨hfp, by rw [hpkg]; rfl⟩]
    refine ⟨_, _, rfl, ?_⟩
    rw [hpkg]
    rfl
  · intro hnone
    have hcond : ¬(FLATPAK_PARMS.get s.flatpak_enum ≠ "off" ∧ td.flatpak_package.isSome = true) := by
      simp [hnone]
    have hnb : s.terminal ≠ "blackbox" := by
      intro e
      rw [e] at h
      rw [show TERMINALS "blackbox" =
            some { name := "Black Box", workdir_arguments := some ["--working-directory"],
                   command_arguments := ["-c"],
                   flatpak_package := some "com.raggesilver.BlackBox" } from rfl,
          Option.some.injEq] at h
      rw [← h] at hnone
      simp at hnone
    have hd : direct_cmd s.terminal env = .ok [s.terminal] := by
      simp [direct_cmd, hnb]
    rw [set_terminal_args_known s env st td h, if_neg hcond, hd]
    exact ⟨_, _, rfl, rfl, rfl⟩

theorem set_terminal_args_sandbox_cmd_witness :
    TERMINALS "tilix" = some { name := "Tilix", flatpak_package := some "com.gexperts.Tilix" } ∧
    ("user" : String) ≠ "off" ∧
    (∃ st1 out, set_terminal_args ⟨"tilix", false, 2⟩ env0 initial_state = .ok (st1, out) ∧
      st1.terminal_cmd = some ["flatpak", "run", "--user", "com.gexperts.Tilix"]) := by
  refine ⟨rfl, by decide, ?_⟩
  exact (set_terminal_args_sandbox_cmd ⟨"tilix", false, 2⟩ env0 initial_state
      { name := "Tilix", flatpak_package := some "com.gexperts.Tilix" } rfl
      (by decide)).1 "com.gexperts.Tilix" rfl

/-- The two-file environment in which the first readable file says
`ID=fedora` but the second says `ID=debian`. -/
def envFedoraDebian : OsEnv := ⟨.content ["ID=fedora"], .content ["ID=debian"]⟩

/-- The distribution ID as the CLAIM words it (not as the code computes
it): the first `ID=` field found, with quoting stripped, in the FIRST
readable of the well-known paths.  For comparison with `distro_id`. -/
def spec_first_id (env : OsEnv) : Option String :=
  let contents : FileState → Option (List String) := fun fs =>
    match fs with
    | .content ls => some ls
    | _ => none
  let firstId : List String → Option String := fun ls =>
    (ls.filterMap (fun l =>
      match parse_os_line l with
      | .pair n v => if n = "ID" then some v else none
      | _ => none)).head?
  match contents env.etc_os_release with
  | some ls => firstId ls
  | none =>
    match contents env.usr_lib_os_release with
    | some ls => firstId ls
    | none => none

/-- C8 (counterexample): in `envFedoraDebian` the claim's reading of the
distribution data — first `ID=` field of the first readable path — is
`fedora`, yet the resolver leaves the blackbox prefix at `["blackbox"]`:
the code reads BOTH files and the dict keeps the LAST `ID=` binding, here
`debian`. -/
theorem blackbox_fedora_first_id_fails :
    spec_first_id envFedoraDebian = some "fedora" ∧
    distro_id envFedoraDebian = .ok "debian" ∧
    (set_terminal_args ⟨"blackbox", false, 0⟩ envFedoraDebian initial_state).map
        (fun p => p.1.terminal_cmd) = .ok (some ["blackbox"]) := by
  decide

/-- C8 (amended): when the identifier is `blackbox`, sandbox mode is `off`,
and the distribution data yields `ID=fedora` — where the ID is the LAST
`ID=` field found across ALL readable well-known paths (later files
override earlier ones), quoting stripped — the resolved command prefix is
the renamed Fedora binary `blackbox-terminal`. -/
theorem set_terminal_args_blackbox_fedora :
    ∀ (s : Settings) (env : OsEnv) (st : GlobalState),
      s.terminal = "blackbox" → FLATPAK_PARMS.get s.flatpak_enum = "off" →
      distro_id env = .ok "fedora" →
      ∃ st1 out, set_terminal_args s env st = .ok (st1, out) ∧
        st1.terminal_cmd = some ["blackbox-terminal"] := by
  intro s env st hterm hoff hfed
  have h : TERMINALS s.terminal =
      some { name := "Black Box", workdir_arguments := some ["--working-directory"],
             command_arguments := ["-c"],
             flatpak_package := some "com.raggesilver.BlackBox" } := by
    rw [hterm]
    rfl
  have hcond : ¬(FLATPAK_PARMS.get s.flatpak_enum ≠ "off" ∧
      ({ name := "Black Box", workdir_arguments := some ["--working-directory"],
         command_arguments := ["-c"],
         flatpak_package := some "com.raggesilver.BlackBox" } : Terminal).flatpak_package.isSome = true) :=
    fun hc => hc.1 hoff
  have hd : direct_cmd s.terminal env = .ok ["blackbox-terminal"] := by
    rw [hterm]
    simp [direct_cmd, hfed]
  rw [set_terminal_args_known s env st _ h, if_neg hcond, hd]
  exact ⟨_, _, rfl, rfl⟩

theorem set_terminal_args_blackbox_fedora_witness :
    distro_id ⟨.content ["ID=\"fedora\""], .missing⟩ = .ok "fedora" ∧
    (∃ st1 out, set_terminal_args ⟨"blackbox", false, 0⟩
        ⟨.content ["ID=\"fedora\""], .missing⟩ initial_state = .ok (st1, out) ∧
      st1.terminal_cmd = some ["blackbox-terminal"]) :=
  ⟨by decide,
   set_terminal_args_blackbox_fedora ⟨"blackbox", false, 0⟩
     ⟨.content ["ID=\"fedora\""], .missing⟩ initial_state rfl rfl (by decide)⟩

/-- Membership in `REMOTE_URI_SCHEME` is exactly "scheme is ftp or sftp". -/
lemma mem_remote_uri_scheme (s : String) :
    s ∈ REMOTE_URI_SCHEME ↔ (s = "ftp" ∨ s = "sftp") := by
  simp [REMOTE_URI_SCHEME]

/-- C4: for every URI with a remote-access scheme (and a hostname), the
launcher builds exactly the argv of the spec's remote formula:
`commandPrefix + commandArguments + ["ssh","-t", userAtHostOrHost,
("-p", port)?, "cd", shellQuote(decodedPath), ";", "exec", "$SHELL"]`,
with the user portion only when a username is present and the port flag
only when a port is present; no working directory is passed to the spawn,
and the globals are unchanged. -/
theorem open_terminal_remote_argv (st : GlobalState) (r : ParseResult)
    (cmd0 : List String) (host : String)
    (hcmd : st.terminal_cmd = some cmd0) (hhost : r.hostname = some host)
    (hscheme : r.scheme ∈ REMOTE_URI_SCHEME) :
    open_terminal_in_uri st r =
      some ({ argv := spec_remote_argv cmd0 st.terminal_data.command_arguments
                        r.username host r.port (unquote r.path) }, st) := by
  obtain ⟨scheme, username, hostname, port, path⟩ := r
  simp only at hhost hscheme ⊢
  subst hhost
  simp only [open_terminal_in_uri, hcmd, spec_remote_argv]
  rw [if_pos hscheme]
  cases username with
  | none =>
    cases port with
    | none => simp [truthyStr, truthyNat, List.append_assoc]
    | some p =>
      by_cases hp : p = 0
      · subst hp; simp [truthyStr, truthyNat, List.append_assoc]
      · simp [truthyStr, truthyNat, hp, List.append_assoc]
  | some u =>
    by_cases hu : u = ""
    · subst hu
      cases port with
      | none => simp [truthyStr, truthyNat, List.append_assoc]
      | some p =>
        by_cases hp : p = 0
        · subst hp; simp [truthyStr, truthyNat, List.append_assoc]
        · simp [truthyStr, truthyNat, hp, List.append_assoc]
    · cases port with
      | none => simp [truthyStr, truthyNat, hu, List.append_assoc]
      | some p =>
        by_cases hp : p = 0
        · subst hp; simp [truthyStr, truthyNat, hu, List.append_assoc]
        · simp [truthyStr, truthyNat, hu, hp, List.append_assoc]

theorem open_terminal_remote_argv_witness :
    ({ terminal := "xterm", terminal_cmd := some ["xterm"], terminal_data := { name := "XTerm" },
       new_tab := false, flatpak := "off" } : GlobalState).terminal_cmd = some ["xterm"] ∧
    ("sftp" : String) ∈ REMOTE_URI_SCHEME ∧
    open_terminal_in_uri
        { terminal := "xterm", terminal_cmd := some ["xterm"], terminal_data := { name := "XTerm" },
          new_tab := false, flatpak := "off" }
        { scheme := "sftp", username := some "bob", hostname := some "example.com",
          port := some 2222, path := "/srv/data" } =
      some ({ argv := ["xterm", "-e", "ssh", "-t", "bob@example.com", "-p", "2222",
                       "cd", "/srv/data", ";", "exec", "$SHELL"] },
            { terminal := "xterm", terminal_cmd := some ["xterm"], terminal_data := { name := "XTerm" },
              new_tab := false, flatpak := "off" }) := by
  refine ⟨rfl, by decide, ?_⟩
  rw [open_terminal_remote_argv
        { terminal := "xterm", terminal_cmd := some ["xterm"], terminal_data := { name := "XTerm" },
          new_tab := false, flatpak := "off" }
        { scheme := "sftp", username := some "bob", hostname := some "example.com",
          port := some 2222, path := "/srv/data" }
        ["xterm"] "example.com" rfl rfl (by decide)]
  rfl

/-- C5: for every URI whose scheme is not a remote-access scheme, the
launcher builds exactly the argv of the spec's local formula — prefix, then
new-tab arguments when preferred and available, else new-window arguments
when available, then workdir arguments plus the decoded path when the path
is non-empty and the terminal supports them — and spawns with the decoded
path as working directory (even when it is empty, in which case the workdir
arguments are skipped but tab/window arguments are still added). -/
theorem open_terminal_local_argv (st : GlobalState) (r : ParseResult)
    (cmd0 : List String)
    (hcmd : st.terminal_cmd = some cmd0) (hscheme : r.scheme ∉ REMOTE_URI_SCHEME) :
    open_terminal_in_uri st r =
      some ({ argv := spec_local_argv cmd0 st.terminal_data st.new_tab (unquote r.path),
              cwd := some (unquote r.path) }, st) := by
  simp only [open_terminal_in_uri, hcmd, spec_local_argv]
  rw [if_neg hscheme]

theorem open_terminal_local_argv_witness :
    ({ terminal := "konsole", terminal_cmd := some ["konsole"],
       terminal_data := { name := "Konsole", new_tab_arguments := some ["--new-tab"] },
       new_tab := true, flatpak := "off" } : GlobalState).terminal_cmd = some ["konsole"] ∧
    ("file" : String) ∉ REMOTE_URI_SCHEME ∧
    unquote "" = "" ∧
    open_terminal_in_uri
        { terminal := "konsole", terminal_cmd := some ["konsole"],
          terminal_data := { name := "Konsole", new_tab_arguments := some ["--new-tab"] },
          new_tab := true, flatpak := "off" }
        { scheme := "file", path := "" } =
      some ({ argv := ["konsole", "--new-tab"], cwd := some "" },
            { terminal := "konsole", terminal_cmd := some ["konsole"],
              terminal_data := { name := "Konsole", new_tab_arguments := some ["--new-tab"] },
              new_tab := true, flatpak := "off" }) := by
  refine ⟨rfl, by decide, rfl, ?_⟩
  rw [open_terminal_local_argv
        { terminal := "konsole", terminal_cmd := some ["konsole"],
          terminal_data := { name := "Konsole", new_tab_arguments := some ["--new-tab"] },
          new_tab := true, flatpak := "off" }
        { scheme := "file", path := "" } ["konsole"] rfl (by decide)]
  rfl

/-- C9: launching never changes the resolved configuration: whenever
`open_terminal_in_uri` reaches a spawn, the globals it hands back are
exactly the ones it was given — the argv is assembled on a copy
(`terminal_cmd.copy()`) and no global is assigned anywhere in the
function. -/
theorem open_terminal_preserves_globals :
    ∀ (st : GlobalState) (r : ParseResult) (res : Spawn × GlobalState),
      open_terminal_in_uri st r = some res → res.2 = st := by
  intro st r res h
  simp only [open_terminal_in_uri] at h
  repeat' split at h
  all_goals try exact Option.noConfusion h
  all_goals (rw [Option.some.injEq] at h; rw [← h])

theorem open_terminal_preserves_globals_witness :
    open_terminal_in_uri
        { terminal := "xterm", terminal_cmd := some ["xterm"], terminal_data := { name := "XTerm" },
          new_tab := false, flatpak := "off" }
        { scheme := "file", path := "/tmp" } =
      some ({ argv := ["xterm"], cwd := some "/tmp" },
            { terminal := "xterm", terminal_cmd := some ["xterm"], terminal_data := { name := "XTerm" },
              new_tab := false, flatpak := "off" }) ∧
    (({ argv := ["xterm"], cwd := some "/tmp" } : Spawn),
      ({ terminal := "xterm", terminal_cmd := some ["xterm"], terminal_data := { name := "XTerm" },
         new_tab := false, flatpak := "off" } : GlobalState)).2 =
      { terminal := "xterm", terminal_cmd := some ["xterm"], terminal_data := { name := "XTerm" },
        new_tab := false, flatpak := "off" } :=
  ⟨by decide,
   open_terminal_preserves_globals
     { terminal := "xterm", terminal_cmd := some ["xterm"], terminal_data := { name := "XTerm" },
       new_tab := false, flatpak := "off" }
     { scheme := "file", path := "/tmp" } _ (by decide)⟩

/-- C10: the launcher takes the remote branch exactly when the scheme is
`"ftp"` or `"sftp"` (the two members of `REMOTE_URI_SCHEME`): such a spawn
carries no working directory and its argv starts with the command prefix,
the command arguments and `["ssh", "-t"]`; for every other scheme the local
branch runs, spawning with the percent-decoded path as working
directory. -/
theorem open_terminal_branch_selection :
    ∀ (st : GlobalState) (r : ParseResult) (res : Spawn × GlobalState),
      open_terminal_in_uri st r = some res →
      ((r.scheme = "ftp" ∨ r.scheme = "sftp") →
        res.1.cwd = none ∧
        ∃ tail, res.1.argv =
          (st.terminal_cmd.getD []) ++ st.terminal_data.command_arguments ++ ["ssh", "-t"] ++ tail) ∧
      (¬(r.scheme = "ftp" ∨ r.scheme = "sftp") →
        res.1.cwd = some (unquote r.path)) := by
  intro st r res h
  unfold open_terminal_in_uri at h
  cases hc : st.terminal_cmd with
  | none => rw [hc] at h; exact absurd h (by simp)
  | some cmd0 =>
    rw [hc] at h
    simp only [] at h
    by_cases hs : r.scheme ∈ REMOTE_URI_SCHEME
    · rw [if_pos hs] at h
      constructor
      · intro _
        split at h
        · exact absurd h (by simp)
        · rename_i ha hha
          rw [Option.some.injEq] at h
          rw [← h]
          refine ⟨rfl, [ha] ++ (if truthyNat r.port = true
              then ["-p", toString (r.port.getD 0)] else []) ++
              ["cd", shlex_quote (unquote r.path), ";", "exec", "$SHELL"], ?_⟩
          simp [List.append_assoc]
      · intro hns
        exact absurd ((mem_remote_uri_scheme r.scheme).mp hs) hns
    · rw [if_neg hs] at h
      constructor
      · intro hor
        exact absurd ((mem_remote_uri_scheme r.scheme).mpr hor) hs
      · intro _
        rw [Option.some.injEq] at h
        rw [← h]

theorem open_terminal_branch_selection_witness :
    open_terminal_in_uri
        { terminal := "xterm", terminal_cmd := some ["xterm"], terminal_data := { name := "XTerm" },
          new_tab := false, flatpak := "off" }
        { scheme := "smb", path := "/share/docs" } =
      some ({ argv := ["xterm"], cwd := some "/share/docs" },
            { terminal := "xterm", terminal_cmd := some ["xterm"], terminal_data := { name := "XTerm" },
              new_tab := false, flatpak := "off" }) ∧
    ¬(("smb" : String) = "ftp" ∨ ("smb" : String) = "sftp") ∧
    ({ argv := ["xterm"], cwd := some "/share/docs" } : Spawn).cwd = some (unquote "/share/docs") := by
  refine ⟨by decide, by decide, ?_⟩
  exact (open_terminal_branch_selection
      { terminal := "xterm", terminal_cmd := some ["xterm"], terminal_data := { name := "XTerm" },
        new_tab := false, flatpak := "off" }
      { scheme := "smb", path := "/share/docs" }
      ({ argv := ["xterm"], cwd := some "/share/docs" },
       { terminal := "xterm", terminal_cmd := some ["xterm"], terminal_data := { name := "XTerm" },
         new_tab := false, flatpak := "off" })
      (by decide)).2 (by decide)

lemma string_mk_data (s : String) : String.mk s.data = s := rfl

/-- A shlex-safe character is none of the characters the shell model treats
specially. -/
lemma shlexSafe_not_special (c : Char) (h : shlexSafe c = true) :
    c ≠ '\'' ∧ c ≠ '"' ∧ c ≠ '\\' ∧ c ≠ ' ' ∧ c ≠ '\t' := by
  refine ⟨?_, ?_, ?_, ?_, ?_⟩ <;> (rintro rfl; revert h; decide)

lemma step_norm_quote (l acc : List Char) (b : Bool) :
    shWords .norm ('\'' :: l) acc b = shWords .squote l acc true := by
  simp [shWords]

lemma step_norm_dquote (l acc : List Char) (b : Bool) :
    shWords .norm ('"' :: l) acc b = shWords .dquote l acc true := by
  simp [shWords]

lemma step_norm_other (c : Char) (l acc : List Char) (b : Bool)
    (h1 : c ≠ '\'') (h2 : c ≠ '"') (h3 : c ≠ '\\') (h4 : c ≠ ' ') (h5 : c ≠ '\t') :
    shWords .norm (c :: l) acc b = shWords .norm l (c :: acc) true := by
  simp only [shWords]
  rw [if_neg h1, if_neg h2, if_neg h3, if_neg (by simp [h4, h5])]

lemma step_squote_close (l acc : List Char) (b : Bool) :
    shWords .squote ('\'' :: l) acc b = shWords .norm l acc b := by
  simp [shWords]

lemma step_squote_other (c : Char) (l acc : List Char) (b : Bool) (h : c ≠ '\'') :
    shWords .squote (c :: l) acc b = shWords .squote l (c :: acc) b := by
  simp [shWords, h]

lemma step_dquote_quotechar (l acc : List Char) (b : Bool) :
    shWords .dquote ('\'' :: l) acc b = shWords .dquote l ('\'' :: acc) b := by
  simp [shWords]

lemma step_dquote_close (l acc : List Char) (b : Bool) :
    shWords .dquote ('"' :: l) acc b = shWords .norm l acc b := by
  simp [shWords]

/-- Inside a word, a run of safe characters is consumed literally. -/
lemma shWords_safe_run (cs : List Char) (acc : List Char)
    (h : ∀ c ∈ cs, shlexSafe c = true) :
    shWords .norm cs acc true = some [String.mk (acc.reverse ++ cs)] := by
  induction cs generalizing acc with
  | nil => simp [shWords]
  | cons c rest ih =>
    have hc := shlexSafe_not_special c (h c (by simp))
    rw [step_norm_other c rest acc true hc.1 hc.2.1 hc.2.2.1 hc.2.2.2.1 hc.2.2.2.2]
    rw [ih (c :: acc) (fun d hd => h d (by simp [hd]))]
    simp

/-- Parsing the single-quoted body produced by `shlex.quote`: every
character is recovered literally, the `'"'"'` dance included. -/
lemma shWords_squote_run (cs : List Char) (acc : List Char) :
    shWords .squote (shQuoteBody cs ++ ['\'']) acc true =
      some [String.mk (acc.reverse ++ cs)] := by
  induction cs generalizing acc with
  | nil => simp [shQuoteBody, shWords]
  | cons c rest ih =>
    by_cases hc : c = '\''
    · subst hc
      show shWords .squote
          ('\'' :: '"' :: '\'' :: '"' :: '\'' :: (shQuoteBody rest ++ ['\''])) acc true = _
      rw [step_squote_close, step_norm_dquote, step_dquote_quotechar,
          step_dquote_close, step_norm_quote]
      rw [ih ('\'' :: acc)]
      simp
    · simp only [shQuoteBody, if_neg hc, List.cons_append, List.nil_append,
                 List.append_assoc]
      rw [step_squote_other c _ acc true hc]
      rw [ih (c :: acc)]
      simp

/-- Round trip: for EVERY string, the shell model parses `shlex.quote s`
back to exactly the single word `s`. -/
lemma shlex_quote_roundtrip (s : String) :
    shWords .norm (shlex_quote s).data [] false = some [s] := by
  by_cases h0 : s = ""
  · subst h0; decide
  · rw [shlex_quote, if_neg h0]
    by_cases hsafe : s.data.all shlexSafe = true
    · rw [if_pos hsafe]
      have hall : ∀ d ∈ s.data, shlexSafe d = true := by
        rw [List.all_eq_true] at hsafe
        exact fun d hdm => hsafe d hdm
      cases hd : s.data with
      | nil => exact absurd (String.ext (hd.trans rfl)) h0
      | cons c rest =>
        rw [hd] at hall
        have hc := shlexSafe_not_special c (hall c (by simp))
        rw [step_norm_other c rest [] false hc.1 hc.2.1 hc.2.2.1 hc.2.2.2.1 hc.2.2.2.2]
        rw [shWords_safe_run rest [c] (fun d hdm => hall d (by simp [hdm]))]
        show some [String.mk (c :: rest)] = some [s]
        rw [← hd, string_mk_data]
    · rw [if_neg hsafe]
      show shWords .norm ('\'' :: (shQuoteBody s.data ++ ['\''])) [] false = some [s]
      rw [step_norm_quote]
      rw [shWords_squote_run s.data []]
      show some [String.mk s.data] = some [s]
      rw [string_mk_data]

/-- C6: in the remote branch the path argument of the `cd` is the
percent-decoded URI path passed through `shlex.quote`, appearing as one
element of the argv, and the POSIX-shell model parses that element back to
exactly the decoded path — whatever characters (spaces, single quotes,
shell metacharacters) the path contains. -/
theorem remote_path_shell_quote_roundtrip :
    ∀ (st : GlobalState) (r : ParseResult) (res : Spawn × GlobalState),
      r.scheme ∈ REMOTE_URI_SCHEME →
      open_terminal_in_uri st r = some res →
      (∃ pre, res.1.argv =
        pre ++ ["cd", shlex_quote (unquote r.path), ";", "exec", "$SHELL"]) ∧
      shWords .norm (shlex_quote (unquote r.path)).data [] false =
        some [unquote r.path] := by
  intro st r res hs h
  refine ⟨?_, shlex_quote_roundtrip _⟩
  simp only [open_terminal_in_uri] at h
  split at h
  · exact Option.noConfusion h
  · rw [if_pos hs] at h
    split at h
    · exact Option.noConfusion h
    · rw [Option.some.injEq] at h
      rw [← h]
      exact ⟨_, rfl⟩

theorem remote_path_shell_quote_roundtrip_witness :
    ("sftp" : String) ∈ REMOTE_URI_SCHEME ∧
    open_terminal_in_uri
        { terminal := "xterm", terminal_cmd := some ["xterm"], terminal_data := { name := "XTerm" },
          new_tab := false, flatpak := "off" }
        { scheme := "sftp", hostname := some "example.com", path := "/a%20b's" } =
      some ({ argv := ["xterm", "-e", "ssh", "-t", "example.com",
                       "cd", "'/a b'\"'\"'s'", ";", "exec", "$SHELL"] },
            { terminal := "xterm", terminal_cmd := some ["xterm"], terminal_data := { name := "XTerm" },
              new_tab := false, flatpak := "off" }) ∧
    ((∃ pre, (({ argv := ["xterm", "-e", "ssh", "-t", "example.com",
                          "cd", "'/a b'\"'\"'s'", ";", "exec", "$SHELL"] } : Spawn)).argv =
        pre ++ ["cd", shlex_quote (unquote "/a%20b's"), ";", "exec", "$SHELL"]) ∧
      shWords .norm (shlex_quote (unquote "/a%20b's")).data [] false =
        some [unquote "/a%20b's"]) := by
  refine ⟨by decide, by decide, ?_⟩
  exact remote_path_shell_quote_roundtrip
      { terminal := "xterm", terminal_cmd := some ["xterm"], terminal_data := { name := "XTerm" },
        new_tab := false, flatpak := "off" }
      { scheme := "sftp", hostname := some "example.com", path := "/a%20b's" }
      ({ argv := ["xterm", "-e", "ssh", "-t", "example.com",
                  "cd", "'/a b'\"'\"'s'", ";", "exec", "$SHELL"] },
       { terminal := "xterm", terminal_cmd := some ["xterm"], terminal_data := { name := "XTerm" },
         new_tab := false, flatpak := "off" })
      (by decide) (by decide)
